import Mathlib

/-!
Shallow embedding of `tests_appels_api.py`: a small Legifrance API client with
three functional units — token acquisition (`obtenir_token_legifrance`),
search payload construction and request (`recherche_legifrance`), and result
flattening (`extraire_resultats`).

Python runtime values are modelled by `PyVal`; operations that can raise a
Python exception live in `Except PyErr`.  HTTP traffic is abstracted by the
response the remote side would deliver (`HttpResponse`, `RequestOutcome`).
-/

namespace Legifrance

/-- Model of the Python values this script manipulates: `None`, strings,
integers, lists and string-keyed dicts (JSON-shaped data). -/
inductive PyVal where
  | none
  | str (s : String)
  | int (n : Int)
  | list (xs : List PyVal)
  | dict (fields : List (String × PyVal))

/-- The Python exceptions the script can raise, plus the
`requests.exceptions.RequestException` family raised by the HTTP layer. -/
inductive PyErr where
  | typeError
  | keyError
  | indexError
  | attributeError
  | httpError
  | connectionError
  deriving DecidableEq

/-- Python truthiness (`if x:`) for the modelled values. -/
def PyVal.truthy : PyVal → Bool
  | .none => false
  | .str s => !s.data.isEmpty
  | .int n => n != 0
  | .list xs => !xs.isEmpty
  | .dict fs => !fs.isEmpty

/-- Pure lookup `d.get(k)`-style access used for stating payload properties:
`some v` when `p` is a dict binding `k` to `v`, `Option.none` otherwise. -/
def PyVal.get? (p : PyVal) (k : String) : Option PyVal :=
  match p with
  | .dict fs => fs.lookup k
  | _ => Option.none

/-- Python `d.get(k, dflt)`: raises `AttributeError` on non-dicts. -/
def dictGet (v : PyVal) (k : String) (dflt : PyVal) : Except PyErr PyVal :=
  match v with
  | .dict fs => .ok ((fs.lookup k).getD dflt)
  | _ => .error .attributeError

/-- Python `k in v` for a string `k`: key membership on dicts, substring test
on strings, element membership on lists, `TypeError` otherwise. -/
def containsKey (k : String) (v : PyVal) : Except PyErr Bool :=
  match v with
  | .dict fs => .ok (fs.lookup k).isSome
  | .str s => .ok ((s.splitOn k).length != 1)
  | .list xs => .ok (xs.any fun x => match x with | .str s => s == k | _ => false)
  | _ => .error .typeError

/-- Python `v[k]` subscript with a string key: dict lookup (`KeyError` when
missing), `TypeError` on every other value. -/
def subscriptStr (v : PyVal) (k : String) : Except PyErr PyVal :=
  match v with
  | .dict fs =>
    match fs.lookup k with
    | some x => .ok x
    | Option.none => .error .keyError
  | _ => .error .typeError

/-- Python `v[0]`: head of a non-empty list or string (`IndexError` when
empty), `KeyError` on dicts (no integer key exists in this model),
`TypeError` otherwise. -/
def index0 (v : PyVal) : Except PyErr PyVal :=
  match v with
  | .list [] => .error .indexError
  | .list (x :: _) => .ok x
  | .str s =>
    match s.data with
    | [] => .error .indexError
    | c :: _ => .ok (.str (String.mk [c]))
  | .dict _ => .error .keyError
  | _ => .error .typeError

/-- Python `for x in v`: elements of a list, keys of a dict, characters of a
string, `TypeError` otherwise. -/
def iterate (v : PyVal) : Except PyErr (List PyVal) :=
  match v with
  | .list xs => .ok xs
  | .dict fs => .ok (fs.map fun p => .str p.fst)
  | .str s => .ok (s.data.map fun c => .str (String.mk [c]))
  | _ => .error .typeError

/-! ### Token acquisition (`obtenir_token_legifrance`, lines 15-36) -/

/-- An HTTP response as seen by the script: status code and parsed JSON body. -/
structure HttpResponse where
  status : Nat
  body : PyVal

/-- Lines 30-36: on status 200 return `response.json()["access_token"]`
(raising if the key is absent), otherwise print a diagnostic and return
`None`. -/
def obtenir_token_legifrance (response : HttpResponse) : Except PyErr (Option PyVal) :=
  if response.status = 200 then
    (subscriptStr response.body "access_token").map some
  else
    .ok Option.none

/-! ### Search payload construction (`recherche_legifrance`, lines 129-159) -/

/-- Python truthiness of the optional `query` argument (`if query:`):
`None` and the empty string are falsy. -/
def truthyOptStr : Option String → Bool
  | Option.none => false
  | some s => !s.isEmpty

/-- Python truthiness of the optional `filtres` argument (`if filtres:`):
`None` and the empty list are falsy. -/
def truthyOptList : Option (List PyVal) → Bool
  | Option.none => false
  | some fs => !fs.isEmpty

/-- Lines 129-159: the JSON payload `recherche_legifrance` builds, with
pagination and sort always present, the `champs` block and top-level
`operateur` added only when `query` is truthy, and `filtres` added only when
the filter list is truthy. -/
def construire_payload (query : Option String) (type_champ type_recherche fond : String)
    (filtres : Option (List PyVal)) (page page_size : Int) (tri : String) : PyVal :=
  let base : List (String × PyVal) :=
    [("pageNumber", .int page), ("pageSize", .int page_size),
     ("sort", .str tri), ("typePagination", .str "DEFAUT")]
  let avecChamps : List (String × PyVal) :=
    if truthyOptStr query then
      base ++
        [("champs", .list [ .dict [
            ("typeChamp", .str type_champ),
            ("criteres", .list [ .dict [
                ("typeRecherche", .str type_recherche),
                ("valeur", .str (query.getD "")),
                ("operateur", .str "ET") ] ]),
            ("operateur", .str "ET") ] ]),
         ("operateur", .str "ET")]
    else base
  let avecFiltres : List (String × PyVal) :=
    match filtres with
    | some fs => if fs.isEmpty then avecChamps else avecChamps ++ [("filtres", .list fs)]
    | Option.none => avecChamps
  .dict [("recherche", .dict avecFiltres), ("fond", .str fond)]

/-- Access a key of the `recherche` sub-object of a payload. -/
def cle_recherche (p : PyVal) (k : String) : Option PyVal :=
  (p.get? "recherche").bind fun r => r.get? k

/-! ### Request dispatch of `recherche_legifrance` (lines 120-127 and 162-170) -/

/-- Lines 120-121: `if not token: token = obtenir_token_legifrance()`.
The token variable is `None` or a string. -/
def resolve_token (token_arg acquired : Option String) : Option String :=
  match token_arg with
  | some s => if s.isEmpty then acquired else some s
  | Option.none => acquired

/-- Line 124: `f"Bearer {token}"` — Python interpolates `None` as the text
`"None"`. -/
def build_auth_header (token : Option String) : String :=
  "Bearer " ++ (match token with | some s => s | Option.none => "None")

/-- Lines 123-127: the headers sent with the search request. -/
def recherche_headers (token_arg acquired : Option String) : List (String × String) :=
  [("Authorization", build_auth_header (resolve_token token_arg acquired)),
   ("Content-Type", "application/json"),
   ("accept", "application/json")]

/-- The HTTP request `recherche_legifrance` hands to `requests.post`. -/
structure SearchCall where
  headers : List (String × String)
  payload : PyVal

/-- Lines 120-163: the request that is unconditionally built and sent, for
given arguments and a given outcome `acquired` of token acquisition. -/
def recherche_legifrance_call (token_arg acquired : Option String) (query : Option String)
    (type_champ type_recherche fond : String) (filtres : Option (List PyVal))
    (page page_size : Int) (tri : String) : SearchCall :=
  ⟨recherche_headers token_arg acquired,
   construire_payload query type_champ type_recherche fond filtres page page_size tri⟩

/-- What the network delivers for the search POST: either a connection-level
failure (a `requests` exception) or a response with a status and JSON body. -/
inductive RequestOutcome where
  | networkError
  | response (status : Nat) (body : PyVal)

/-- `response.raise_for_status()`: raises `requests.exceptions.HTTPError`
exactly for 4xx and 5xx status codes. -/
def raise_for_status (status : Nat) : Except PyErr Unit :=
  if 400 ≤ status ∧ status < 600 then .error .httpError else .ok ()

/-- Lines 163-165, the body of the `try`: post, `raise_for_status`, then
return the parsed JSON. -/
def requete_inner (outcome : RequestOutcome) : Except PyErr PyVal :=
  match outcome with
  | .networkError => .error .connectionError
  | .response status body => do
    let _ ← raise_for_status status
    pure body

/-- Lines 162-170: the `try`/`except RequestException` wrapper — every
request-level exception is caught, a diagnostic is printed and `None` is
returned; a successful body is returned as-is. -/
def recherche_requete (outcome : RequestOutcome) : Option PyVal :=
  match requete_inner outcome with
  | .error _ => Option.none
  | .ok v => some v

/-! ### Result extraction (`extraire_resultats`, lines 202-229) -/

/-- A Python `for` loop that appends `f x` for each element to an output
list: the first exception aborts the whole call. -/
def mapExcept {α : Type} (f : PyVal → Except PyErr α) : List PyVal → Except PyErr (List α)
  | [] => .ok []
  | x :: xs => do
    let y ← f x
    let ys ← mapExcept f xs
    pure (y :: ys)

/-- One entry of `item["extraits"]` (lines 221-225). -/
structure Extrait where
  article : PyVal
  texte : PyVal
  id : PyVal

/-- One extracted item (lines 209-215): `titre`, `nature`, `date`, `id`,
`extraits`. -/
structure Item where
  titre : PyVal
  nature : PyVal
  date : PyVal
  id : PyVal
  extraits : List Extrait

/-- Line 210: `resultat.get("titles", [{}])[0].get("title", "Sans titre")
if "titles" in resultat else "Sans titre"`. -/
def champ_titre (resultat : PyVal) : Except PyErr PyVal := do
  let c ← containsKey "titles" resultat
  if c then
    let t ← dictGet resultat "titles" (.list [.dict []])
    let t0 ← index0 t
    dictGet t0 "title" (.str "Sans titre")
  else
    pure (.str "Sans titre")

/-- Line 211: `resultat.get("nature", "Non spécifiée")`. -/
def champ_nature (resultat : PyVal) : Except PyErr PyVal :=
  dictGet resultat "nature" (.str "Non spécifiée")

/-- Line 212: `resultat.get("date", "Date inconnue")`. -/
def champ_date (resultat : PyVal) : Except PyErr PyVal :=
  dictGet resultat "date" (.str "Date inconnue")

/-- Line 213: `resultat.get("id", resultat.get("titles", [{}])[0].get("id")
if "titles" in resultat else None)`.  Python evaluates the fallback argument
eagerly, before `.get("id", …)` runs. -/
def champ_id (resultat : PyVal) : Except PyErr PyVal := do
  let c ← containsKey "titles" resultat
  let dflt ←
    if c then do
      let t ← dictGet resultat "titles" (.list [.dict []])
      let t0 ← index0 t
      dictGet t0 "id" .none
    else
      pure PyVal.none
  dictGet resultat "id" dflt

/-- Lines 221-225: one appended excerpt.  The `texte` condition is
`"values" in extract and extract["values"]` (truthiness of the value). -/
def extraire_extrait (extract : PyVal) : Except PyErr Extrait := do
  let article ← dictGet extract "num" (.str "Non numéroté")
  let hasValues ← containsKey "values" extract
  let cond ←
    if hasValues then do
      let v ← subscriptStr extract "values"
      pure v.truthy
    else
      pure false
  let texte ←
    if cond then do
      let v ← dictGet extract "values" (.list [.str ""])
      index0 v
    else
      pure (PyVal.str "")
  let idExtrait ← dictGet extract "id" (.str "")
  pure ⟨article, texte, idExtrait⟩

/-- Lines 219-225: handle one section — when it has an `extracts` entry,
append one `Extrait` per extract, in order. -/
def extraits_of_section (acc : List Extrait) (sec : PyVal) : Except PyErr (List Extrait) := do
  let hasExtracts ← containsKey "extracts" sec
  if hasExtracts then do
    let extracts ← subscriptStr sec "extracts"
    let extractList ← iterate extracts
    let nouveaux ← mapExcept extraire_extrait extractList
    pure (acc ++ nouveaux)
  else
    pure acc

/-- Lines 218-225: the `for section in resultat["sections"]` loop. -/
def foldSections (acc : List Extrait) : List PyVal → Except PyErr (List Extrait)
  | [] => .ok acc
  | s :: ss => do
    let acc2 ← extraits_of_section acc s
    foldSections acc2 ss

/-- Lines 209-227: build one item from one record of `results`. -/
def extraire_item (resultat : PyVal) : Except PyErr Item := do
  let titre ← champ_titre resultat
  let nature ← champ_nature resultat
  let date ← champ_date resultat
  let idVal ← champ_id resultat
  let hasSections ← containsKey "sections" resultat
  let extraits ←
    if hasSections then do
      let sections ← subscriptStr resultat "sections"
      let sectionList ← iterate sections
      foldSections [] sectionList
    else
      pure []
  pure ⟨titre, nature, date, idVal, extraits⟩

/-- Lines 202-229: `extraire_resultats`.  The guard (line 204) returns `[]`
when the argument is falsy or lacks a `results` key. -/
def extraire_resultats (resultats : PyVal) : Except PyErr (List Item) :=
  if !resultats.truthy then
    .ok []
  else do
    let c ← containsKey "results" resultats
    if !c then
      .ok []
    else do
      let rs ← subscriptStr resultats "results"
      let rlist ← iterate rs
      mapExcept extraire_item rlist

/-! ### Tolerated record shapes

The extractor's defaulting only protects against *missing* keys; these
predicates delimit the shapes on which no line of `extraire_resultats` can
raise. -/

/-- Shape of a `titles` value the extractor tolerates: absent, or a
non-empty list whose first element is a dict. -/
inductive WFTitles : Option PyVal → Prop where
  | absent : WFTitles Option.none
  | present (gs : List (String × PyVal)) (ts : List PyVal) :
      WFTitles (some (.list (.dict gs :: ts)))

/-- Shape of a `values` value the extractor tolerates: absent, a list, or a
string. -/
inductive WFValues : Option PyVal → Prop where
  | absent : WFValues Option.none
  | list (xs : List PyVal) : WFValues (some (.list xs))
  | str (s : String) : WFValues (some (.str s))

/-- An extract the extractor tolerates: a dict whose `values`, when present,
is a list or a string. -/
inductive WFExtract : PyVal → Prop where
  | mk (gs : List (String × PyVal)) :
      WFValues (gs.lookup "values") → WFExtract (.dict gs)

/-- A section the extractor tolerates: a dict whose `extracts`, when
present, is a list of tolerated extracts. -/
inductive WFSection : PyVal → Prop where
  | noExtracts (gs : List (String × PyVal)) :
      gs.lookup "extracts" = Option.none → WFSection (.dict gs)
  | withExtracts (gs : List (String × PyVal)) (es : List PyVal) :
      gs.lookup "extracts" = some (.list es) → (∀ e ∈ es, WFExtract e) →
      WFSection (.dict gs)

/-- A record of `results` the extractor tolerates: a dict with tolerated
`titles` and, when present, a `sections` list of tolerated sections. -/
inductive WFRecord : PyVal → Prop where
  | noSections (fs : List (String × PyVal)) :
      WFTitles (fs.lookup "titles") → fs.lookup "sections" = Option.none →
      WFRecord (.dict fs)
  | withSections (fs : List (String × PyVal)) (ss : List PyVal) :
      WFTitles (fs.lookup "titles") → fs.lookup "sections" = some (.list ss) →
      (∀ s ∈ ss, WFSection s) → WFRecord (.dict fs)

/-! ## Theorems -/

/-- C2: for every HTTP response, if the status is 200 and the JSON body
contains an `access_token` field, `obtenir_token_legifrance` returns exactly
that string; for any other status it returns `None` and does not raise. -/
theorem obtenir_token_cases (resp : HttpResponse) (fs : List (String × PyVal)) (s : String) :
    (resp.status = 200 → resp.body = .dict fs → fs.lookup "access_token" = some (.str s) →
      obtenir_token_legifrance resp = .ok (some (.str s))) ∧
    (resp.status ≠ 200 → obtenir_token_legifrance resp = .ok Option.none) := by
  constructor
  · intro h1 h2 h3
    simp [obtenir_token_legifrance, h1, h2, subscriptStr, h3, Except.map]
  · intro h1
    simp [obtenir_token_legifrance, h1]

/-- Witness for `obtenir_token_cases` at two concrete responses. -/
theorem obtenir_token_cases_witness :
    obtenir_token_legifrance ⟨200, .dict [("access_token", .str "tok")]⟩ = .ok (some (.str "tok")) ∧
    obtenir_token_legifrance ⟨401, .dict []⟩ = .ok Option.none :=
  ⟨(obtenir_token_cases ⟨200, .dict [("access_token", .str "tok")]⟩
      [("access_token", .str "tok")] "tok").1 rfl rfl rfl,
   (obtenir_token_cases ⟨401, .dict []⟩ [] "tok").2 (by decide)⟩

/-- C3 counterexample: the empty string is a provided query string, yet the
payload built for it contains no field-criterion block at all. -/
theorem payload_query_vide_sans_champs :
    cle_recherche (construire_payload (some "") "ALL" "EXACTE" "LEGI_ARTICLE"
      Option.none 1 10 "PERTINENCE") "champs" = Option.none := rfl

/-- C3 amended: when the query is omitted the payload has no `champs` block;
when a non-empty query string is provided the payload carries exactly one
field-criterion block with that query, the given field type and match mode,
combined with the `ET` (AND) operator. -/
theorem payload_champs_spec (q type_champ type_recherche fond : String)
    (filtres : Option (List PyVal)) (page page_size : Int) (tri : String) :
    (cle_recherche (construire_payload Option.none type_champ type_recherche fond
        filtres page page_size tri) "champs" = Option.none) ∧
    (q ≠ "" →
      cle_recherche (construire_payload (some q) type_champ type_recherche fond
          filtres page page_size tri) "champs" =
        some (.list [ .dict [
          ("typeChamp", .str type_champ),
          ("criteres", .list [ .dict [
              ("typeRecherche", .str type_recherche),
              ("valeur", .str q),
              ("operateur", .str "ET") ] ]),
          ("operateur", .str "ET") ] ])) := by
  constructor
  · cases filtres with
    | none => rfl
    | some fl => cases fl with
      | nil => rfl
      | cons f fl => rfl
  · intro hq
    have hqe : q.isEmpty = false := by
      cases he : q.isEmpty with
      | false => rfl
      | true => exact absurd ((String.isEmpty_iff q).mp he) hq
    cases filtres with
    | none =>
      simp [construire_payload, truthyOptStr, hqe, cle_recherche, PyVal.get?, List.lookup]
    | some fl => cases fl with
      | nil =>
        simp [construire_payload, truthyOptStr, hqe, cle_recherche, PyVal.get?, List.lookup]
      | cons f fl =>
        simp [construire_payload, truthyOptStr, hqe, cle_recherche, PyVal.get?, List.lookup]

/-- Witness for `payload_champs_spec` at a concrete non-empty query. -/
theorem payload_champs_spec_witness :
    cle_recherche (construire_payload Option.none "ALL" "EXACTE" "LEGI_ARTICLE"
      Option.none 1 10 "PERTINENCE") "champs" = Option.none ∧
    cle_recherche (construire_payload (some "Code civil") "ALL" "EXACTE" "LEGI_ARTICLE"
      Option.none 1 10 "PERTINENCE") "champs" =
      some (.list [ .dict [
        ("typeChamp", .str "ALL"),
        ("criteres", .list [ .dict [
            ("typeRecherche", .str "EXACTE"),
            ("valeur", .str "Code civil"),
            ("operateur", .str "ET") ] ]),
        ("operateur", .str "ET") ] ]) :=
  ⟨(payload_champs_spec "Code civil" "ALL" "EXACTE" "LEGI_ARTICLE" Option.none 1 10 "PERTINENCE").1,
   (payload_champs_spec "Code civil" "ALL" "EXACTE" "LEGI_ARTICLE" Option.none 1 10 "PERTINENCE").2
     (by decide)⟩

/-- C4 counterexample: the empty list is a provided filter list, yet the
payload built for it contains no `filtres` key (so its filter list does not
equal the input list). -/
theorem payload_filtres_vides_absents :
    cle_recherche (construire_payload Option.none "ALL" "EXACTE" "LEGI_ARTICLE"
      (some []) 1 10 "PERTINENCE") "filtres" = Option.none := rfl

/-- C4 amended: a non-empty filter list is passed through unchanged as the
payload's `filtres`; when the argument is omitted (and likewise when it is
the empty list) the payload has no `filtres` key. -/
theorem payload_filtres_spec (fl : List PyVal) (query : Option String)
    (type_champ type_recherche fond : String) (page page_size : Int) (tri : String) :
    (fl ≠ [] →
      cle_recherche (construire_payload query type_champ type_recherche fond
          (some fl) page page_size tri) "filtres" = some (.list fl)) ∧
    (cle_recherche (construire_payload query type_champ type_recherche fond
        Option.none page page_size tri) "filtres" = Option.none) := by
  constructor
  · intro hfl
    cases fl with
    | nil => exact absurd rfl hfl
    | cons f fl =>
      cases query with
      | none =>
        simp [construire_payload, truthyOptStr, cle_recherche, PyVal.get?, List.lookup]
      | some s =>
        cases hs : s.isEmpty with
        | false =>
          simp [construire_payload, truthyOptStr, hs, cle_recherche, PyVal.get?, List.lookup]
        | true =>
          simp [construire_payload, truthyOptStr, hs, cle_recherche, PyVal.get?, List.lookup]
  · cases query with
    | none =>
      simp [construire_payload, truthyOptStr, cle_recherche, PyVal.get?, List.lookup]
    | some s =>
      cases hs : s.isEmpty with
      | false =>
        simp [construire_payload, truthyOptStr, hs, cle_recherche, PyVal.get?, List.lookup]
      | true =>
        simp [construire_payload, truthyOptStr, hs, cle_recherche, PyVal.get?, List.lookup]

/-- Witness for `payload_filtres_spec` at a concrete filter list. -/
theorem payload_filtres_spec_witness :
    cle_recherche (construire_payload Option.none "ALL" "EXACTE" "CODE_DATE"
      (some [.dict [("facette", .str "NOM_CODE"), ("valeurs", .list [.str "Code civil"])]])
      1 10 "PERTINENCE") "filtres" =
      some (.list [.dict [("facette", .str "NOM_CODE"), ("valeurs", .list [.str "Code civil"])]]) :=
  (payload_filtres_spec [.dict [("facette", .str "NOM_CODE"), ("valeurs", .list [.str "Code civil"])]]
    Option.none "ALL" "EXACTE" "CODE_DATE" 1 10 "PERTINENCE").1 (by simp)

/-- C10: calling with the empty string as query builds a payload identical to
the one built when the query is omitted, with no `champs` block and no
top-level `operateur` key under `recherche`. -/
theorem payload_query_chaine_vide (type_champ type_recherche fond : String)
    (filtres : Option (List PyVal)) (page page_size : Int) (tri : String) :
    construire_payload (some "") type_champ type_recherche fond filtres page page_size tri =
      construire_payload Option.none type_champ type_recherche fond filtres page page_size tri ∧
    cle_recherche (construire_payload (some "") type_champ type_recherche fond
      filtres page page_size tri) "champs" = Option.none ∧
    cle_recherche (construire_payload (some "") type_champ type_recherche fond
      filtres page page_size tri) "operateur" = Option.none := by
  refine ⟨rfl, ?_, ?_⟩ <;>
    (cases filtres with
     | none => rfl
     | some fl => cases fl with
       | nil => rfl
       | cons f fl => rfl)

/-- C5: `extraire_resultats` returns the empty list when its argument is
`None` or is a dict lacking the `results` key. -/
theorem extraire_resultats_vide (v : PyVal)
    (h : v = PyVal.none ∨ ∃ fs, v = PyVal.dict fs ∧ fs.lookup "results" = Option.none) :
    extraire_resultats v = .ok [] := by
  rcases h with h | ⟨fs, h, hl⟩
  · subst h; rfl
  · subst h
    cases fs with
    | nil => rfl
    | cons p ps =>
      simp [extraire_resultats, PyVal.truthy, containsKey, hl, Bind.bind, Except.bind, pure, Except.pure]

/-- Witness for `extraire_resultats_vide` at `None` and at a concrete dict. -/
theorem extraire_resultats_vide_witness :
    extraire_resultats PyVal.none = .ok [] ∧
    extraire_resultats (.dict [("executionTime", .int 1)]) = .ok [] :=
  ⟨extraire_resultats_vide PyVal.none (Or.inl rfl),
   extraire_resultats_vide (.dict [("executionTime", .int 1)])
     (Or.inr ⟨[("executionTime", .int 1)], rfl, rfl⟩)⟩

/-- C7: the response `{"results":[{"nature":"LOI","date":"2020-01-01"}]}` is
flattened to exactly one item with title `Sans titre`, nature `LOI`, date
`2020-01-01`, id `None` and no excerpts. -/
theorem extraction_scenario_loi :
    extraire_resultats (.dict [("results", .list
      [.dict [("nature", .str "LOI"), ("date", .str "2020-01-01")]])]) =
    .ok [⟨.str "Sans titre", .str "LOI", .str "2020-01-01", PyVal.none, []⟩] := rfl

/-- C8 counterexample: HTTP 300 is not a 2xx status, yet
`recherche_legifrance` returns the parsed body rather than `None`
(`raise_for_status` only raises for 4xx/5xx). -/
theorem recherche_statut_300_renvoie_corps :
    recherche_requete (.response 300 (.dict [("results", .list [])])) =
      some (.dict [("results", .list [])]) := rfl

/-- C8 amended: on a network error or any 4xx/5xx response from the search
endpoint, `recherche_legifrance` returns `None`; the exception is caught
inside the function and does not propagate. -/
theorem recherche_echec_renvoie_none (outcome : RequestOutcome)
    (h : outcome = .networkError ∨
      ∃ s b, outcome = .response s b ∧ 400 ≤ s ∧ s < 600) :
    recherche_requete outcome = Option.none := by
  rcases h with h | ⟨s, b, h, h4, h6⟩
  · subst h; rfl
  · subst h
    simp [recherche_requete, requete_inner, raise_for_status, h4, h6]

/-- Witness for `recherche_echec_renvoie_none` at a connection failure and at
an HTTP 500. -/
theorem recherche_echec_renvoie_none_witness :
    recherche_requete .networkError = Option.none ∧
    recherche_requete (.response 500 (.dict [])) = Option.none :=
  ⟨recherche_echec_renvoie_none .networkError (Or.inl rfl),
   recherche_echec_renvoie_none (.response 500 (.dict []))
     (Or.inr ⟨500, .dict [], rfl, by decide, by decide⟩)⟩

/-- C9: called without a token while token acquisition returned `None`, the
search request is still fully built and dispatched, with the absent token
interpolated into the `Authorization` header as `Bearer None`. -/
theorem recherche_sans_token_envoie_bearer_none (query : Option String)
    (type_champ type_recherche fond : String) (filtres : Option (List PyVal))
    (page page_size : Int) (tri : String) :
    (recherche_legifrance_call Option.none Option.none query type_champ type_recherche
        fond filtres page page_size tri).headers =
      [("Authorization", "Bearer None"), ("Content-Type", "application/json"),
       ("accept", "application/json")] ∧
    (recherche_legifrance_call Option.none Option.none query type_champ type_recherche
        fond filtres page page_size tri).payload =
      construire_payload query type_champ type_recherche fond filtres page page_size tri :=
  ⟨rfl, rfl⟩

/-- C6: each field of an extracted item defaults independently when its
source is missing — `titre` to `Sans titre` (both when `titles` is absent
and when the first title entry has no `title`), `nature` to `Non spécifiée`,
`date` to `Date inconnue`, `id` falling back from the record's top-level
`id` to the first title entry's `id` and otherwise `None`, and an excerpt's
`texte` to the empty string when the extract has no `values`. -/
theorem extraction_defaults (fs gs hs : List (String × PyVal)) (ts : List PyVal) (v : PyVal) :
    (fs.lookup "titles" = Option.none →
      champ_titre (.dict fs) = .ok (.str "Sans titre")) ∧
    (fs.lookup "titles" = some (.list (.dict gs :: ts)) → gs.lookup "title" = Option.none →
      champ_titre (.dict fs) = .ok (.str "Sans titre")) ∧
    (fs.lookup "nature" = Option.none →
      champ_nature (.dict fs) = .ok (.str "Non spécifiée")) ∧
    (fs.lookup "date" = Option.none →
      champ_date (.dict fs) = .ok (.str "Date inconnue")) ∧
    (fs.lookup "titles" = Option.none → fs.lookup "id" = some v →
      champ_id (.dict fs) = .ok v) ∧
    (fs.lookup "id" = Option.none → fs.lookup "titles" = some (.list (.dict gs :: ts)) →
      champ_id (.dict fs) = .ok ((gs.lookup "id").getD PyVal.none)) ∧
    (fs.lookup "id" = Option.none → fs.lookup "titles" = Option.none →
      champ_id (.dict fs) = .ok PyVal.none) ∧
    (hs.lookup "values" = Option.none →
      extraire_extrait (.dict hs) =
        .ok ⟨(hs.lookup "num").getD (.str "Non numéroté"), .str "",
             (hs.lookup "id").getD (.str "")⟩) ∧
    (fs.lookup "titles" = Option.none → fs.lookup "nature" = Option.none →
      fs.lookup "date" = Option.none → fs.lookup "id" = Option.none →
      fs.lookup "sections" = Option.none →
      extraire_item (.dict fs) =
        .ok ⟨.str "Sans titre", .str "Non spécifiée", .str "Date inconnue",
             PyVal.none, []⟩) := by
  refine ⟨?_, ?_, ?_, ?_, ?_, ?_, ?_, ?_, ?_⟩
  · intro h
    simp [champ_titre, containsKey, h, Bind.bind, Except.bind, pure, Except.pure]
  · intro h h2
    simp [champ_titre, containsKey, dictGet, index0, h, h2, Bind.bind, Except.bind, pure, Except.pure]
  · intro h
    simp [champ_nature, dictGet, h]
  · intro h
    simp [champ_date, dictGet, h]
  · intro h h2
    simp [champ_id, containsKey, dictGet, h, h2, Bind.bind, Except.bind, pure, Except.pure]
  · intro h h2
    simp [champ_id, containsKey, dictGet, index0, h, h2, Bind.bind, Except.bind, pure, Except.pure]
  · intro h h2
    simp [champ_id, containsKey, dictGet, h, h2, Bind.bind, Except.bind, pure, Except.pure]
  · intro h
    simp [extraire_extrait, containsKey, dictGet, h, Bind.bind, Except.bind, pure, Except.pure]
  · intro h1 h2 h3 h4 h5
    simp [extraire_item, champ_titre, champ_nature, champ_date, champ_id, containsKey, dictGet,
      h1, h2, h3, h4, h5, Bind.bind, Except.bind, pure, Except.pure]

/-- Witness for `extraction_defaults` at the empty record and empty
extract. -/
theorem extraction_defaults_witness :
    champ_titre (.dict []) = .ok (.str "Sans titre") ∧
    champ_nature (.dict []) = .ok (.str "Non spécifiée") ∧
    champ_date (.dict []) = .ok (.str "Date inconnue") ∧
    champ_id (.dict []) = .ok PyVal.none ∧
    extraire_extrait (.dict []) = .ok ⟨.str "Non numéroté", .str "", .str ""⟩ ∧
    extraire_item (.dict []) =
      .ok ⟨.str "Sans titre", .str "Non spécifiée", .str "Date inconnue",
           PyVal.none, []⟩ := by
  have h := extraction_defaults [] [] [] [] PyVal.none
  exact ⟨h.1 rfl, h.2.2.1 rfl, h.2.2.2.1 rfl, h.2.2.2.2.2.2.1 rfl rfl,
    h.2.2.2.2.2.2.2.1 rfl, h.2.2.2.2.2.2.2.2 rfl rfl rfl rfl rfl⟩

/-- C1 counterexample: a record whose `titles` key is present but maps to
the empty list makes `extraire_resultats` raise `IndexError` (line 210
evaluates `[][0]`), so extraction is not total on malformed records. -/
theorem extraction_titles_vides_leve_erreur :
    extraire_resultats (.dict [("results", .list [.dict [("titles", .list [])]])]) =
      .error .indexError := rfl

/-- Line 210 raises nothing on a tolerated `titles` shape. -/
theorem champ_titre_ok (fs : List (String × PyVal)) (h : WFTitles (fs.lookup "titles")) :
    ∃ v, champ_titre (.dict fs) = .ok v := by
  generalize hl : fs.lookup "titles" = o at h
  cases h with
  | absent =>
    exact ⟨.str "Sans titre",
      by simp [champ_titre, containsKey, hl, Bind.bind, Except.bind, pure, Except.pure]⟩
  | present gs ts =>
    exact ⟨(gs.lookup "title").getD (.str "Sans titre"),
      by simp [champ_titre, containsKey, dictGet, index0, hl,
        Bind.bind, Except.bind, pure, Except.pure]⟩

/-- Line 213 raises nothing on a tolerated `titles` shape. -/
theorem champ_id_ok (fs : List (String × PyVal)) (h : WFTitles (fs.lookup "titles")) :
    ∃ v, champ_id (.dict fs) = .ok v := by
  generalize hl : fs.lookup "titles" = o at h
  cases h with
  | absent =>
    exact ⟨(fs.lookup "id").getD PyVal.none,
      by simp [champ_id, containsKey, dictGet, hl, Bind.bind, Except.bind, pure, Except.pure]⟩
  | present gs ts =>
    exact ⟨(fs.lookup "id").getD ((gs.lookup "id").getD PyVal.none),
      by simp [champ_id, containsKey, dictGet, index0, hl,
        Bind.bind, Except.bind, pure, Except.pure]⟩

/-- Lines 221-225 raise nothing on a tolerated extract. -/
theorem extraire_extrait_ok (e : PyVal) (h : WFExtract e) :
    ∃ x, extraire_extrait e = .ok x := by
  cases h with
  | mk gs hv =>
    generalize hl : gs.lookup "values" = o at hv
    cases hv with
    | absent =>
      exact ⟨⟨(gs.lookup "num").getD (.str "Non numéroté"), .str "",
              (gs.lookup "id").getD (.str "")⟩,
        by simp [extraire_extrait, containsKey, dictGet, subscriptStr, hl,
          Bind.bind, Except.bind, pure, Except.pure]⟩
    | list xs =>
      cases xs with
      | nil =>
        exact ⟨⟨(gs.lookup "num").getD (.str "Non numéroté"), .str "",
                (gs.lookup "id").getD (.str "")⟩,
          by simp [extraire_extrait, containsKey, dictGet, subscriptStr, hl, PyVal.truthy,
            Bind.bind, Except.bind, pure, Except.pure]⟩
      | cons x xs =>
        exact ⟨⟨(gs.lookup "num").getD (.str "Non numéroté"), x,
                (gs.lookup "id").getD (.str "")⟩,
          by simp [extraire_extrait, containsKey, dictGet, subscriptStr, index0, hl,
            PyVal.truthy, Bind.bind, Except.bind, pure, Except.pure]⟩
    | str s =>
      cases hd : s.data with
      | nil =>
        exact ⟨⟨(gs.lookup "num").getD (.str "Non numéroté"), .str "",
                (gs.lookup "id").getD (.str "")⟩,
          by simp [extraire_extrait, containsKey, dictGet, subscriptStr, hl, PyVal.truthy, hd,
            Bind.bind, Except.bind, pure, Except.pure]⟩
      | cons c cs =>
        exact ⟨⟨(gs.lookup "num").getD (.str "Non numéroté"), .str (String.mk [c]),
                (gs.lookup "id").getD (.str "")⟩,
          by simp [extraire_extrait, containsKey, dictGet, subscriptStr, index0, hl,
            PyVal.truthy, hd, Bind.bind, Except.bind, pure, Except.pure]⟩

/-- The extract loop of one section raises nothing on tolerated extracts. -/
theorem mapExcept_extrait_ok (es : List PyVal) (h : ∀ e ∈ es, WFExtract e) :
    ∃ l, mapExcept extraire_extrait es = .ok l := by
  induction es with
  | nil => exact ⟨[], rfl⟩
  | cons e es ih =>
    obtain ⟨x, hx⟩ := extraire_extrait_ok e (h e (by simp))
    obtain ⟨l, hl⟩ := ih fun a ha => h a (by simp [ha])
    exact ⟨x :: l, by simp [mapExcept, hx, hl, Bind.bind, Except.bind, pure, Except.pure]⟩

/-- Lines 219-225 raise nothing on a tolerated section. -/
theorem extraits_of_section_ok (acc : List Extrait) (s : PyVal) (h : WFSection s) :
    ∃ l, extraits_of_section acc s = .ok l := by
  cases h with
  | noExtracts gs hg =>
    exact ⟨acc, by simp [extraits_of_section, containsKey, hg,
      Bind.bind, Except.bind, pure, Except.pure]⟩
  | withExtracts gs es hg hes =>
    obtain ⟨l, hl⟩ := mapExcept_extrait_ok es hes
    exact ⟨acc ++ l, by simp [extraits_of_section, containsKey, subscriptStr, iterate, hg, hl,
      Bind.bind, Except.bind, pure, Except.pure]⟩

/-- The section loop raises nothing on tolerated sections. -/
theorem foldSections_ok (ss : List PyVal) (h : ∀ s ∈ ss, WFSection s) :
    ∀ acc, ∃ l, foldSections acc ss = .ok l := by
  induction ss with
  | nil => exact fun acc => ⟨acc, rfl⟩
  | cons s ss ih =>
    intro acc
    obtain ⟨l1, hl1⟩ := extraits_of_section_ok acc s (h s (by simp))
    obtain ⟨l, hl⟩ := ih (fun a ha => h a (by simp [ha])) l1
    exact ⟨l, by simp [foldSections, hl1, hl, Bind.bind, Except.bind, pure, Except.pure]⟩

/-- Lines 209-227 raise nothing on a tolerated record. -/
theorem extraire_item_ok (r : PyVal) (h : WFRecord r) :
    ∃ it, extraire_item r = .ok it := by
  cases h with
  | noSections fs ht hsec =>
    obtain ⟨t, htit⟩ := champ_titre_ok fs ht
    obtain ⟨i, hid⟩ := champ_id_ok fs ht
    exact ⟨⟨t, (fs.lookup "nature").getD (.str "Non spécifiée"),
            (fs.lookup "date").getD (.str "Date inconnue"), i, []⟩,
      by simp [extraire_item, champ_nature, champ_date, containsKey, dictGet, htit, hid, hsec,
        Bind.bind, Except.bind, pure, Except.pure]⟩
  | withSections fs ss ht hsec hss =>
    obtain ⟨t, htit⟩ := champ_titre_ok fs ht
    obtain ⟨i, hid⟩ := champ_id_ok fs ht
    obtain ⟨l, hl⟩ := foldSections_ok ss hss []
    exact ⟨⟨t, (fs.lookup "nature").getD (.str "Non spécifiée"),
            (fs.lookup "date").getD (.str "Date inconnue"), i, l⟩,
      by simp [extraire_item, champ_nature, champ_date, containsKey, subscriptStr, iterate,
        dictGet, htit, hid, hsec, hl, Bind.bind, Except.bind, pure, Except.pure]⟩

/-- The record loop raises nothing on tolerated records. -/
theorem mapExcept_item_ok (rs : List PyVal) (h : ∀ r ∈ rs, WFRecord r) :
    ∃ l, mapExcept extraire_item rs = .ok l := by
  induction rs with
  | nil => exact ⟨[], rfl⟩
  | cons r rs ih =>
    obtain ⟨it, hit⟩ := extraire_item_ok r (h r (by simp))
    obtain ⟨l, hl⟩ := ih fun a ha => h a (by simp [ha])
    exact ⟨it :: l, by simp [mapExcept, hit, hl, Bind.bind, Except.bind, pure, Except.pure]⟩

/-- C1 amended: `extraire_resultats` raises no error provided every record of
`results` has the tolerated shape — a dict whose `titles`, when present, is
a non-empty list starting with a dict, and whose `sections`, when present,
is a list of dicts in which each `extracts`, when present, is a list of
dicts whose `values`, when present, is a list or a string.  Outside this
shape the extractor can raise (`extraction_titles_vides_leve_erreur`). -/
theorem extraction_ok_of_wf (fs : List (String × PyVal)) (rs : List PyVal)
    (h1 : fs.lookup "results" = some (.list rs))
    (h2 : ∀ r ∈ rs, WFRecord r) :
    ∃ items, extraire_resultats (.dict fs) = .ok items := by
  obtain ⟨l, hl⟩ := mapExcept_item_ok rs h2
  cases fs with
  | nil => simp [List.lookup] at h1
  | cons p ps =>
    exact ⟨l, by simp [extraire_resultats, PyVal.truthy, containsKey, subscriptStr, iterate,
      h1, hl, Bind.bind, Except.bind, pure, Except.pure]⟩

/-- Witness for `extraction_ok_of_wf` at a concrete well-formed response. -/
theorem extraction_ok_of_wf_witness :
    ∃ items, extraire_resultats (.dict [("results", .list
      [.dict [("titles", .list [.dict [("title", .str "Code civil")]]),
              ("sections", .list [.dict [("extracts", .list [.dict []])]])]])]) =
      .ok items :=
  extraction_ok_of_wf _ _ rfl (by
    intro r hr
    simp at hr
    subst hr
    refine WFRecord.withSections _ [.dict [("extracts", .list [.dict []])]]
      (WFTitles.present [("title", .str "Code civil")] []) rfl ?_
    intro s hs
    simp at hs
    subst hs
    refine WFSection.withExtracts _ [.dict []] rfl ?_
    intro e he
    simp at he
    subst he
    exact WFExtract.mk [] WFValues.absent)

end Legifrance
